import Mathlib

/-!
# Verification of the US state population dashboard (src/app.py)

Shallow embedding of the data-transformation layer of the dashboard:
the loaded table (`PopulationTable`), the national trend aggregation
(`national_trend`), the choropleth callback (`update_map`) and the trend
callback (`update_state_population_trend`), plus a model of the CSV loading
step (`read_csv`) and of the top-N ranking described by the spec.

Conventions of the embedding:
* pandas row filters (`df[df['year'] == y]`) are `List.filter`, preserving
  row order, exactly as pandas does;
* the pandas inner merge on `state` enumerates, for each left row in order,
  the matching right rows in order (`List.bind`);
* a division whose divisor is zero is a fallible computation: it is embedded
  as `Option ℚ` with value `none` (the float implementation would propagate a
  non-finite value there; the spec's error taxonomy calls this DivisionError);
* an out-of-bounds `.iloc` access (IndexError) makes the whole callback
  fallible, embedded as an `Option` result.
-/

/-- One row of the loaded table: `state, year, population`
(src/app.py line 10, columns named on load). -/
structure PopulationRecord where
  state : String
  year : Int
  population : Int
deriving DecidableEq, Repr

/-- The loaded table `df`: an ordered collection of rows. -/
abbrev PopulationTable := List PopulationRecord

/-- Sum of the populations of the rows of year `y`:
`df[df['year'] == y]['population'].sum()`. -/
def yearTotal (df : PopulationTable) (y : Int) : Int :=
  ((df.filter (fun r => r.year == y)).map (fun r => r.population)).sum

/-- Embedding of `national_trend = df.groupby('year')['population'].sum().reset_index()`
(src/app.py line 16): one `(year, total)` pair per distinct year of the table,
in ascending year order (pandas `groupby` sorts its keys). -/
def national_trend (df : PopulationTable) : List (Int × Int) :=
  (List.insertionSort (fun a b => a ≤ b) (df.map (fun r => r.year)).dedup).map
    (fun y => (y, yearTotal df y))

/-- The figure produced by the map callback, restricted to the data it carries:
the per-state colouring values and the title. A growth value is `none` when its
baseline is zero (non-finite in the float implementation). -/
structure MapFig where
  values : List (String × Option ℚ)
  title : String
deriving DecidableEq, Repr

/-- The colouring value of one merged row of the growth view
(src/app.py line 110):
`(population_current - population_previous) / population_previous * 100`,
undefined (`none`) on a zero baseline, where the float implementation would
produce a non-finite value. -/
def growthValue (rp : PopulationRecord × PopulationRecord) : String × Option ℚ :=
  (rp.1.state,
   if rp.2.population = 0 then none
   else some (((rp.1.population : ℚ) - (rp.2.population : ℚ)) /
                (rp.2.population : ℚ) * 100))

/-- Embedding of `update_map(selected_year, map_type)` (src/app.py lines 99-130).
`filtered_data` is the current-year slice; on `map_type == 'growth'` it is
inner-merged on `state` with the previous-year slice and coloured by
`(population_current - population_previous) / population_previous * 100`;
on any other `map_type` it is coloured by raw `population` with the
`Total Population in {year}` title. -/
def update_map (df : PopulationTable) (selected_year : Int) (map_type : String) :
    MapFig :=
  let filtered_data := df.filter (fun r => r.year == selected_year)
  if map_type = "growth" then
    let prev_year_data := df.filter (fun r => r.year == selected_year - 1)
    let merged := filtered_data.flatMap (fun r =>
      (prev_year_data.filter (fun p => p.state == r.state)).map (fun p => (r, p)))
    { values := merged.map growthValue
      title := "Population Growth Rate " ++ toString (selected_year - 1) ++
               " to " ++ toString selected_year }
  else
    { values := filtered_data.map (fun r => (r.state, some ((r.population : ℚ))))
      title := "Total Population in " ++ toString selected_year }

/-- The scenario dataset of the spec (§8):
`NY,2000,19000000 / NY,2001,19200000 / CA,2000,34000000 / CA,2001,34500000`. -/
def scenarioTable : PopulationTable :=
  [⟨"NY", 2000, 19000000⟩, ⟨"NY", 2001, 19200000⟩,
   ⟨"CA", 2000, 34000000⟩, ⟨"CA", 2001, 34500000⟩]

/-- Looking up a key in an association list built by pairing each element with
a function of itself returns that function's value whenever the key occurs. -/
theorem lookup_map_self {α β : Type} [DecidableEq α] (f : α → β) :
    ∀ (l : List α) (y : α), y ∈ l → (l.map (fun a => (a, f a))).lookup y = some (f y) := by
  intro l
  induction l with
  | nil => intro y h; cases h
  | cons a l ih =>
    intro y hy
    by_cases hya : y = a
    · subst hya
      simp [List.lookup]
    · rcases List.mem_cons.mp hy with h | h
      · exact absurd h hya
      · simpa [List.lookup, beq_false_of_ne hya] using ih y h

theorem mem_years_mem_trend {df : PopulationTable} {y : Int}
    (h : y ∈ df.map (fun r => r.year)) :
    y ∈ List.insertionSort (fun a b => a ≤ b) (df.map (fun r => r.year)).dedup := by
  rw [List.mem_insertionSort]
  exact List.mem_dedup.mpr h

/-- C1: for every year present in the table, `national_trend` maps it to the sum
of the populations of the rows of that year; on the scenario dataset it yields
`{2000 ↦ 53000000, 2001 ↦ 53700000}`. -/
theorem national_trend_sums (df : PopulationTable) (y : Int)
    (hy : y ∈ df.map (fun r => r.year)) :
    (national_trend df).lookup y =
      some (((df.filter (fun r => r.year == y)).map (fun r => r.population)).sum) ∧
    national_trend scenarioTable = [(2000, 53000000), (2001, 53700000)] := by
  constructor
  · exact lookup_map_self (yearTotal df) _ y (mem_years_mem_trend hy)
  · decide

/-- Witness for C1 at the scenario table and year 2000. -/
theorem national_trend_sums_witness :
    (national_trend scenarioTable).lookup 2000 =
      some (((scenarioTable.filter (fun r => r.year == 2000)).map
        (fun r => r.population)).sum) :=
  (national_trend_sums scenarioTable 2000 (by decide)).1

/-- C10: any metric value other than `'growth'` falls into the `else` branch of
`update_map`: the figure equals the `'total'` figure, coloured by raw population
with the `Total Population in {year}` title. -/
theorem update_map_default_total (df : PopulationTable) (y : Int) (mt : String)
    (h : mt ≠ "growth") :
    update_map df y mt = update_map df y "total" ∧
    (update_map df y mt).title = "Total Population in " ++ toString y ∧
    (update_map df y mt).values =
      (df.filter (fun r => r.year == y)).map
        (fun r => (r.state, some ((r.population : ℚ)))) := by
  refine ⟨?_, ?_, ?_⟩ <;> simp [update_map, if_neg h]

/-- Witness for C10 at the scenario table with the out-of-enum metric `"banana"`. -/
theorem update_map_default_total_witness :
    update_map scenarioTable 2000 "banana" = update_map scenarioTable 2000 "total" :=
  (update_map_default_total scenarioTable 2000 "banana" (by decide)).1

/-- The growth branch of `update_map`, unfolded: the values are the per-state
growth entries of the inner merge of the current-year slice with the
previous-year slice. -/
theorem update_map_growth (df : PopulationTable) (y : Int) :
    (update_map df y "growth").values =
      ((df.filter (fun r => r.year == y)).flatMap (fun r =>
        ((df.filter (fun q => q.year == y - 1)).filter (fun p => p.state == r.state)).map
          (fun p => (r, p)))).map growthValue := rfl

/-- C3: every key of the growth-rate figure names a state having a record in the
selected year and a record in the previous year. -/
theorem growth_keys_subset (df : PopulationTable) (y : Int) (s : String)
    (hs : s ∈ (update_map df y "growth").values.map Prod.fst) :
    (∃ r ∈ df, r.year = y ∧ r.state = s) ∧
    (∃ r ∈ df, r.year = y - 1 ∧ r.state = s) := by
  rw [update_map_growth, List.map_map] at hs
  simp only [List.mem_map, Function.comp, List.mem_flatMap, List.mem_filter,
    beq_iff_eq, growthValue] at hs
  obtain ⟨a, ⟨r, ⟨hr, hry⟩, p, ⟨⟨hpdf, hpy⟩, hps⟩, hEq⟩, hst⟩ := hs
  subst hEq
  exact ⟨⟨r, hr, hry, hst⟩, ⟨p, hpdf, hpy, hps.trans hst⟩⟩

/-- Witness for C3 at the scenario table, year 2001, state NY. -/
theorem growth_keys_subset_witness :
    (∃ r ∈ scenarioTable, r.year = 2001 ∧ r.state = "NY") ∧
    (∃ r ∈ scenarioTable, r.year = 2001 - 1 ∧ r.state = "NY") :=
  growth_keys_subset scenarioTable 2001 "NY" (by decide)

/-- C2: a state with exactly one record in the selected year and one in the
previous year is assigned the exact growth value
`(pop[Y] - pop[Y-1]) / pop[Y-1] * 100` (the baseline being nonzero so that the
exact value exists); on the scenario dataset at year 2001 this gives
`NY ↦ 20/19 ≈ 1.0526` and `CA ↦ 25/17 ≈ 1.4706`. -/
theorem growthRates_exact (df : PopulationTable) (y : Int) (s : String) (c p : Int)
    (hc : df.filter (fun r => r.year == y && r.state == s) = [⟨s, y, c⟩])
    (hp : df.filter (fun r => r.year == y - 1 && r.state == s) = [⟨s, y - 1, p⟩])
    (hp0 : p ≠ 0) :
    ((s, some (((c : ℚ) - (p : ℚ)) / (p : ℚ) * 100)) ∈ (update_map df y "growth").values ∧
     ∀ v, (s, v) ∈ (update_map df y "growth").values →
       v = some (((c : ℚ) - (p : ℚ)) / (p : ℚ) * 100)) ∧
    (update_map scenarioTable 2001 "growth").values =
      [("NY", some (20 / 19)), ("CA", some (25 / 17))] ∧
    |(20 : ℚ) / 19 - 10526 / 10000| < 1 / 10000 ∧
    |(25 : ℚ) / 17 - 14706 / 10000| < 1 / 10000 := by
  have hcmem : (⟨s, y, c⟩ : PopulationRecord) ∈
      df.filter (fun r => r.year == y && r.state == s) := by
    rw [hc]; exact List.mem_singleton_self _
  have hpmem : (⟨s, y - 1, p⟩ : PopulationRecord) ∈
      df.filter (fun r => r.year == y - 1 && r.state == s) := by
    rw [hp]; exact List.mem_singleton_self _
  rw [List.mem_filter] at hcmem hpmem
  refine ⟨⟨?_, ?_⟩, ?_, ?_, ?_⟩
  · rw [update_map_growth]
    refine List.mem_map.mpr ⟨(⟨s, y, c⟩, ⟨s, y - 1, p⟩), ?_, ?_⟩
    · refine List.mem_flatMap.mpr ⟨⟨s, y, c⟩, List.mem_filter.mpr ⟨hcmem.1, by simp⟩, ?_⟩
      refine List.mem_map.mpr ⟨⟨s, y - 1, p⟩, ?_, rfl⟩
      exact List.mem_filter.mpr ⟨List.mem_filter.mpr ⟨hpmem.1, by simp⟩, by simp⟩
    · simp [growthValue, if_neg hp0]
  · intro v hv
    rw [update_map_growth] at hv
    simp only [List.mem_map, List.mem_flatMap, List.mem_filter, beq_iff_eq] at hv
    obtain ⟨a, ⟨r, ⟨hr, hry⟩, q, ⟨⟨hqdf, hqy⟩, hqs⟩, hEq⟩, hval⟩ := hv
    subst hEq
    have hrs : r.state = s := congrArg Prod.fst hval
    have hrc : r ∈ df.filter (fun r => r.year == y && r.state == s) :=
      List.mem_filter.mpr ⟨hr, by simp [hry, hrs]⟩
    rw [hc] at hrc
    have hr' : r = ⟨s, y, c⟩ := List.mem_singleton.mp hrc
    have hqc : q ∈ df.filter (fun r => r.year == y - 1 && r.state == s) :=
      List.mem_filter.mpr ⟨hqdf, by simp [hqy, hqs.trans hrs]⟩
    rw [hp] at hqc
    have hq' : q = ⟨s, y - 1, p⟩ := List.mem_singleton.mp hqc
    subst hr' hq'
    have hv2 : (growthValue (⟨s, y, c⟩, ⟨s, y - 1, p⟩)).2 = v := congrArg Prod.snd hval
    simpa [growthValue, if_neg hp0] using hv2.symm
  · have h1 : (update_map scenarioTable 2001 "growth").values =
        [("NY", some ((((19200000 : Int) : ℚ) - ((19000000 : Int) : ℚ)) /
            ((19000000 : Int) : ℚ) * 100)),
         ("CA", some ((((34500000 : Int) : ℚ) - ((34000000 : Int) : ℚ)) /
            ((34000000 : Int) : ℚ) * 100))] := rfl
    rw [h1]
    push_cast
    norm_num
  · rw [abs_sub_lt_iff]; constructor <;> norm_num
  · rw [abs_sub_lt_iff]; constructor <;> norm_num

/-- Witness for C2: NY between 2000 and 2001 in the scenario dataset. -/
theorem growthRates_exact_witness :
    ("NY", some ((((19200000 : Int) : ℚ) - ((19000000 : Int) : ℚ)) /
        ((19000000 : Int) : ℚ) * 100)) ∈
      (update_map scenarioTable 2001 "growth").values :=
  (growthRates_exact scenarioTable 2001 "NY" 19200000 19000000
    (by decide) (by decide) (by decide)).1.1

/-- A table with a zero-population baseline record: AK has population 0 in 1999
and population 5 in 2000. -/
def zeroBaselineTable : PopulationTable :=
  [⟨"AK", 1999, 0⟩, ⟨"AK", 2000, 5⟩]

/-- Counterexample to C4: a state whose previous-year population is zero is NOT
excluded from the growth-rate figure — its key appears in the result (its value
being the unguarded division, non-finite in the float implementation, `none`
here). -/
theorem zero_baseline_not_excluded :
    ("AK", (none : Option ℚ)) ∈ (update_map zeroBaselineTable 2000 "growth").values ∧
    (update_map zeroBaselineTable 2000 "growth").values.map Prod.fst = ["AK"] := by
  constructor <;> decide

/-- C4 as amended: a state with a record in the selected year and a
zero-population record in the previous year is included in the growth-rate
figure; the division is not guarded, and the entry carries the undefined
(non-finite) growth value. -/
theorem zero_baseline_included (df : PopulationTable) (y : Int) (s : String) (c : Int)
    (hc : (⟨s, y, c⟩ : PopulationRecord) ∈ df)
    (hp : (⟨s, y - 1, 0⟩ : PopulationRecord) ∈ df) :
    (s, (none : Option ℚ)) ∈ (update_map df y "growth").values := by
  rw [update_map_growth]
  refine List.mem_map.mpr ⟨(⟨s, y, c⟩, ⟨s, y - 1, 0⟩), ?_, ?_⟩
  · refine List.mem_flatMap.mpr ⟨⟨s, y, c⟩, List.mem_filter.mpr ⟨hc, by simp⟩, ?_⟩
    refine List.mem_map.mpr ⟨⟨s, y - 1, 0⟩, ?_, rfl⟩
    exact List.mem_filter.mpr ⟨List.mem_filter.mpr ⟨hp, by simp⟩, by simp⟩
  · simp [growthValue]

/-- Witness for the amended C4 at the zero-baseline table. -/
theorem zero_baseline_included_witness :
    ("AK", (none : Option ℚ)) ∈ (update_map zeroBaselineTable 2000 "growth").values :=
  zero_baseline_included zeroBaselineTable 2000 "AK" 5 (by decide) (by decide)

/-- The per-state series drawn by the trend callback (src/app.py lines 139-153):
the `(year, population)` points of the rows of the selected state, in table
order (the source applies no sort). -/
def stateSeries (df : PopulationTable) (s : String) : List (Int × Int) :=
  (df.filter (fun r => r.state == s)).map (fun r => (r.year, r.population))

/-- The figure produced by the trend callback, restricted to the data it
carries: the state trace, the national overlay trace, the total-growth
percentage of the title, and the final-year annotation point. -/
structure TrendFig where
  stateTraceName : String
  stateTrace : List (Int × Int)
  nationalTrace : List (Int × Int)
  totalGrowth : Option ℚ
  annotationX : Int
  annotationY : Int
deriving DecidableEq, Repr

/-- Embedding of `update_state_population_trend(selected_state)` (src/app.py
lines 137-191). `state_data` is the slice of the selected state, in table
order; `first_pop`/`last_pop` are `.iloc[0]`/`.iloc[-1]`, which raise
IndexError on an empty slice (`none` here); the total growth
`(last_pop - first_pop) / first_pop * 100` is undefined on a zero first value
(non-finite in the float implementation, `none` here); the annotation sits at
the last row's year and population. -/
def update_state_population_trend (df : PopulationTable) (selected_state : String) :
    Option TrendFig :=
  let state_data := df.filter (fun r => r.state == selected_state)
  match state_data.head?, state_data.getLast? with
  | some firstRec, some lastRec =>
    some { stateTraceName := selected_state ++ " Population"
           stateTrace := stateSeries df selected_state
           nationalTrace := national_trend df
           totalGrowth :=
             if firstRec.population = 0 then none
             else some (((lastRec.population : ℚ) - (firstRec.population : ℚ)) /
                          (firstRec.population : ℚ) * 100)
           annotationX := lastRec.year
           annotationY := lastRec.population }
  | _, _ => none

/-- C7: for a state with a non-empty series, the trend view holds the national
trend overlay and a final-year annotation at the last row's year and
population, and its total-growth percentage is `(last - first) / first * 100`
when the first value is nonzero and fails (is undefined) when the first value
is zero. -/
theorem trend_view_contents (df : PopulationTable) (s : String)
    (r0 rl : PopulationRecord)
    (h0 : (df.filter (fun r => r.state == s)).head? = some r0)
    (hl : (df.filter (fun r => r.state == s)).getLast? = some rl) :
    update_state_population_trend df s = some
      { stateTraceName := s ++ " Population"
        stateTrace := stateSeries df s
        nationalTrace := national_trend df
        totalGrowth := if r0.population = 0 then none
          else some (((rl.population : ℚ) - (r0.population : ℚ)) /
                       (r0.population : ℚ) * 100)
        annotationX := rl.year
        annotationY := rl.population } := by
  simp only [update_state_population_trend, h0, hl]

/-- Witness for C7: NY in the scenario dataset (first row 2000, last row 2001). -/
theorem trend_view_contents_witness :
    update_state_population_trend scenarioTable "NY" = some
      { stateTraceName := "NY Population"
        stateTrace := stateSeries scenarioTable "NY"
        nationalTrace := national_trend scenarioTable
        totalGrowth := if (19000000 : Int) = 0 then none
          else some ((((19200000 : Int) : ℚ) - ((19000000 : Int) : ℚ)) /
                       ((19000000 : Int) : ℚ) * 100)
        annotationX := 2001
        annotationY := 19200000 } :=
  trend_view_contents scenarioTable "NY" ⟨"NY", 2000, 19000000⟩
    ⟨"NY", 2001, 19200000⟩ (by decide) (by decide)

/-- Counterexample to C5: selecting a state absent from the table does not
degrade to an empty or partial view model — the trend callback fails
(IndexError on `.iloc[0]`, `none` here) and produces no figure at all. -/
theorem trend_missing_state_fails :
    update_state_population_trend scenarioTable "ZZ" = none := by decide

/-- C5 as amended: the map callback never fails — a year absent from the table
yields a figure with an empty value list — but the trend callback fails
(raises, yielding no view model) exactly when the selected state has no record
in the table. -/
theorem query_miss_behavior :
    (∀ (df : PopulationTable) (y : Int) (mt : String),
      (∀ r ∈ df, r.year ≠ y) → (update_map df y mt).values = []) ∧
    (∀ (df : PopulationTable) (s : String),
      update_state_population_trend df s = none ↔ ∀ r ∈ df, r.state ≠ s) := by
  constructor
  · intro df y mt h
    have hf : df.filter (fun r => r.year == y) = [] :=
      List.filter_eq_nil_iff.mpr (by simpa using h)
    by_cases hmt : mt = "growth"
    · subst hmt
      rw [update_map_growth, hf]
      rfl
    · simp [update_map, if_neg hmt, hf]
  · intro df s
    cases hf : df.filter (fun r => r.state == s) with
    | nil =>
      simp only [update_state_population_trend, hf, List.head?_nil]
      rw [List.filter_eq_nil_iff] at hf
      simpa using hf
    | cons a l =>
      simp only [update_state_population_trend, hf, List.head?_cons, List.getLast?_cons]
      have ha : a ∈ df.filter (fun r => r.state == s) := hf ▸ List.mem_cons_self a l
      rw [List.mem_filter] at ha
      simp only [beq_iff_eq] at ha
      constructor
      · intro h; exact absurd h (by simp)
      · intro h; exact absurd ha.2 (h a ha.1)

/-- Witness for the amended C5: year 1990 is absent from the scenario table and
the map view degrades to an empty value list. -/
theorem query_miss_behavior_witness :
    (update_map scenarioTable 1990 "total").values = [] :=
  query_miss_behavior.1 scenarioTable 1990 "total" (by decide)

/-- A table whose NY rows are not in ascending year order. -/
def unsortedTable : PopulationTable := [⟨"NY", 2001, 10⟩, ⟨"NY", 2000, 9⟩]

/-- Counterexample to C6: the trend callback applies no sort, so a table whose
rows are not year-ordered yields a per-state series that is not sorted by year
ascending. -/
theorem stateSeries_not_sorted :
    ¬ List.Pairwise (fun a b : Int × Int => a.1 ≤ b.1)
        (stateSeries unsortedTable "NY") ∧
    stateSeries unsortedTable "NY" = [(2001, 10), (2000, 9)] := by
  constructor <;> decide

/-- C6 as amended: the per-state series is the table-order restriction to the
state; whenever the table lists that state's rows in strictly increasing year
order, the series is sorted by year ascending and has no duplicate years. -/
theorem stateSeries_order (df : PopulationTable) (s : String)
    (h : List.Pairwise (fun a b => a.year < b.year) (df.filter (fun r => r.state == s))) :
    List.Pairwise (fun a b : Int × Int => a.1 < b.1) (stateSeries df s) ∧
    List.Pairwise (fun a b : Int × Int => a.1 ≠ b.1) (stateSeries df s) := by
  have h1 : List.Pairwise (fun a b : Int × Int => a.1 < b.1) (stateSeries df s) := by
    rw [stateSeries, List.pairwise_map]
    exact h
  exact ⟨h1, h1.imp ne_of_lt⟩

/-- Witness for the amended C6: the scenario table lists NY's rows in
increasing year order, so NY's series is strictly ascending in year. -/
theorem stateSeries_order_witness :
    List.Pairwise (fun a b : Int × Int => a.1 < b.1)
      (stateSeries scenarioTable "NY") :=
  (stateSeries_order scenarioTable "NY" (by decide)).1

/-- Splits the characters of a CSV line at commas, accumulating the current
field. -/
def splitFieldsAux : List Char → List Char → List String
  | [], acc => [String.mk acc.reverse]
  | c :: rest, acc =>
    if c = ',' then String.mk acc.reverse :: splitFieldsAux rest []
    else splitFieldsAux rest (c :: acc)

/-- The comma-separated fields of one CSV line. -/
def splitFields (line : String) : List String :=
  splitFieldsAux line.data []

/-- Whether a CSV field is an integer literal (an optional minus sign followed
by one or more digits) — the spec's notion of an integer `year`/`population`
field. -/
def isIntegerField (s : String) : Bool :=
  match s.data with
  | [] => false
  | '-' :: rest => !rest.isEmpty && rest.all (fun c => c.isDigit)
  | cs => cs.all (fun c => c.isDigit)

/-- One loaded row of the raw CSV: the `state`, `year` and `population` fields
as loaded, a field being `none` when the line supplied too few fields (pandas
fills NA). Fields are kept as raw strings: with explicit column names, pandas
`read_csv` applies no per-row type validation — a non-numeric field merely
degrades its column to object dtype. -/
abbrev RawRow := Option String × Option String × Option String

/-- The three named columns of a left-aligned list of fields, missing trailing
fields becoming NA. -/
def padFields : List String → RawRow
  | [] => (none, none, none)
  | [s] => (some s, none, none)
  | [s, y] => (some s, some y, none)
  | s :: y :: p :: _ => (some s, some y, some p)

/-- The field count of the file's first (non-blank) row: the column width the
pandas tokenizer establishes from the start of the file. With three names, a
wider first row turns its leading extras into index columns; a narrower one
leaves the trailing named columns NA. -/
def expectedWidth (rows : List String) : Nat :=
  match rows with
  | [] => 0
  | first :: _ => (splitFields first).length

/-- One row of an accepted file of width `w`: the fields are laid out
left-aligned in the `w` slots (missing trailing fields NA), and the three
named columns are the last three slots — the leading `w - 3` slots, when `w`
exceeds the three names, are the index columns. -/
def parseLine (w : Nat) (line : String) : RawRow :=
  padFields ((splitFields line).drop (w - 3))

/-- Embedding of the loading step
`pd.read_csv(url, names=['state', 'year', 'population'])` (src/app.py line 10):
blank lines are skipped (pandas `skip_blank_lines` default); a row with more
fields than the width established by the file's first row is a bad line, which
aborts the whole load with a ParserError naming the offending row (pandas
default `on_bad_lines='error'`); otherwise every row is loaded, a row with
fewer fields being padded with missing values, and no field is type-checked. -/
def read_csv (lines : List String) : Except String (List RawRow) :=
  match (lines.filter (fun l => !(l == ""))).find?
      (fun l => decide ((splitFields l).length >
        expectedWidth (lines.filter (fun l => !(l == ""))))) with
  | some bad =>
    Except.error ("Expected " ++
      toString (expectedWidth (lines.filter (fun l => !(l == "")))) ++
      " fields, saw " ++ toString (splitFields bad).length ++ " in row: " ++ bad)
  | none =>
    Except.ok ((lines.filter (fun l => !(l == ""))).map
      (parseLine (expectedWidth (lines.filter (fun l => !(l == ""))))))

/-- Counterexample to C8: a row with a non-integer `year` field is loaded
without any error — `read_csv` keeps it, raw — and a row with too few fields
is loaded NA-padded rather than rejected; no DataFormatError exists for
either. -/
theorem malformed_row_loaded :
    read_csv ["NY,abc,100"] = Except.ok [(some "NY", some "abc", some "100")] ∧
    isIntegerField "abc" = false ∧
    read_csv ["NY,2000,100", "", "NY"] =
      Except.ok [(some "NY", some "2000", some "100"), (some "NY", none, none)] := by
  refine ⟨?_, ?_, ?_⟩ <;> rfl

/-- C8 as amended: loading fails — with an error identifying the offending
row — exactly when some row has more fields than the width established by the
file's first row; in every other case loading succeeds, each non-blank line
yielding exactly one row, with non-integer fields kept raw and missing
trailing fields NA — no integer validation and no skipping. -/
theorem loader_behavior (lines : List String) :
    (∀ rows, read_csv lines = Except.ok rows →
       rows = (lines.filter (fun l => !(l == ""))).map
         (parseLine (expectedWidth (lines.filter (fun l => !(l == "")))))) ∧
    ((∃ e, read_csv lines = Except.error e) ↔
       ∃ l ∈ lines.filter (fun l => !(l == "")),
         (splitFields l).length > expectedWidth (lines.filter (fun l => !(l == "")))) := by
  constructor
  · intro rows h
    unfold read_csv at h
    split at h
    · simp at h
    · injection h with h'
      exact h'.symm
  · constructor
    · rintro ⟨e, h⟩
      unfold read_csv at h
      split at h
      · next bad heq =>
        exact ⟨bad, List.mem_of_find?_eq_some heq, by simpa using List.find?_some heq⟩
      · simp at h
    · rintro ⟨l, hl, hgt⟩
      unfold read_csv
      split
      · exact ⟨_, rfl⟩
      · next heq =>
        have := List.find?_eq_none.mp heq l hl
        simp at this
        exact absurd hgt (by omega)

/-- Witness for the amended C8: a file whose second row is wider than its
first aborts the load with an error. -/
theorem loader_behavior_witness :
    ∃ e, read_csv ["NY,2000,100", "NY,2000,100,7"] = Except.error e :=
  (loader_behavior ["NY,2000,100", "NY,2000,100,7"]).2.mpr
    ⟨"NY,2000,100,7", by decide, by decide⟩

/-- Modelled from the spec: the ranking order of `topNByYear` (§4.2). The
top-N view belongs to the repository's second dashboard, which is not under
src/; per the spec, states are ranked by population descending with ties
broken by state code ascending. -/
def topNOrder (a b : PopulationRecord) : Prop :=
  b.population < a.population ∨ (a.population = b.population ∧ a.state ≤ b.state)

instance : DecidableRel topNOrder := fun a b => by unfold topNOrder; infer_instance

instance : IsTotal PopulationRecord topNOrder := by
  constructor
  intro a b
  rcases lt_trichotomy a.population b.population with h | h | h
  · exact Or.inr (Or.inl h)
  · rcases le_total a.state b.state with hs | hs
    · exact Or.inl (Or.inr ⟨h, hs⟩)
    · exact Or.inr (Or.inr ⟨h.symm, hs⟩)
  · exact Or.inl (Or.inl h)

instance : IsTrans PopulationRecord topNOrder := by
  constructor
  intro a b c hab hbc
  rcases hab with h1 | ⟨h1, hs1⟩ <;> rcases hbc with h2 | ⟨h2, hs2⟩
  · exact Or.inl (h2.trans h1)
  · exact Or.inl (h2 ▸ h1)
  · exact Or.inl (h1.symm ▸ h2)
  · exact Or.inr ⟨h1.trans h2, hs1.trans hs2⟩

/-- Modelled from the spec: the records of the selected year ranked by
`topNOrder`, truncated to the first `n` (§4.2). -/
def topNRecords (df : PopulationTable) (year : Int) (n : Nat) : List PopulationRecord :=
  (List.insertionSort topNOrder (df.filter (fun r => r.year == year))).take n

/-- Modelled from the spec: `topNByYear(table, year, n)`, the state codes of
the top `n` records (§4.2). -/
def topNByYear (df : PopulationTable) (year : Int) (n : Nat) : List String :=
  (topNRecords df year n).map (fun r => r.state)

/-- C9: `topNByYear` returns at most `n` state codes, all drawn from states
with a record in the selected year, listed by population descending with ties
broken by state code ascending. -/
theorem topNByYear_spec (df : PopulationTable) (y : Int) (n : Nat) :
    (topNByYear df y n).length ≤ n ∧
    (∀ s ∈ topNByYear df y n, ∃ r ∈ df, r.year = y ∧ r.state = s) ∧
    List.Pairwise topNOrder (topNRecords df y n) ∧
    topNByYear df y n = (topNRecords df y n).map (fun r => r.state) := by
  refine ⟨?_, ?_, ?_, rfl⟩
  · rw [topNByYear, List.length_map, topNRecords, List.length_take]
    exact min_le_left _ _
  · intro s hs
    obtain ⟨r, hr, hrs⟩ := List.mem_map.mp hs
    have hr2 : r ∈ List.insertionSort topNOrder (df.filter (fun r => r.year == y)) :=
      List.take_subset _ _ hr
    rw [List.mem_insertionSort, List.mem_filter, beq_iff_eq] at hr2
    exact ⟨r, hr2.1, hr2.2, hrs⟩
  · exact (List.sorted_insertionSort topNOrder _).sublist (List.take_sublist _ _)

/-- Witness for C9 at the scenario table: the top-10 list for 2001 has at most
ten entries. -/
theorem topNByYear_spec_witness :
    (topNByYear scenarioTable 2001 10).length ≤ 10 :=
  (topNByYear_spec scenarioTable 2001 10).1
